import Mathlib

/-!
Shallow embedding of the mesh routing core of the must-hop repository
(src/must-hop/src/node/network_manager.rs and src/must-hop/src/node/policy.rs).

Machine integers (u8, u16) are modelled as `Nat`; wrapping arithmetic is made
explicit with `% 256` / `% 65536` at the operations where the Rust code
performs arithmetic on those types. `embassy_time::Instant` is modelled as a
`Nat` passed explicitly (`now`); `Instant::now()` inside a call is the `now`
argument of that call. `heapless::Vec<T, N>` is modelled as `List T` together
with explicit capacity checks at every `push` (a push fails exactly when the
list already holds `N` elements). Fallible Rust functions returning
`Result<_, NetworkManagerError>` become `Except NetworkManagerError _`.
-/

namespace MustHop

/-- Modelled from the spec: the `PacketType` enum of the `node` module (the
module file defining it is absent from the snapshot; `network_manager.rs` and
`policy.rs` use exactly the variants `Data`, `Ack`, `BootUp`, matching spec
section 3). -/
inductive PacketType
  | Data
  | Ack
  | BootUp
deriving DecidableEq

/-- Modelled from the spec: the `MHPacket` frame struct of the `node` module
(the module file defining it is absent from the snapshot; the fields are
exactly those read and written by `network_manager.rs` and `policy.rs`,
matching spec section 3). `u8` and `u16` fields are `Nat`. -/
structure MHPacket where
  destination_id : Nat
  packet_type : PacketType
  packet_id : Nat
  source_id : Nat
  payload : List Nat
  hop_count : Nat
  hop_to_gw : Nat
deriving DecidableEq

/-- PendingPacket from network_manager.rs: a frame kept for retransmission,
its deadline (`timeout`, an Instant modelled as `Nat`) and its retry count. -/
structure PendingPacket where
  packet : MHPacket
  timeout : Nat
  retries : Nat
deriving DecidableEq

/-- NetworkManagerError from network_manager.rs (payloads of the `Hardware`
and `Serialization` variants are irrelevant to the claims and dropped). -/
inductive NetworkManagerError
  | Hardware
  | Serialization
  | Timeout
  | InvalidPacket (id : Nat)
  | BufferFull
deriving DecidableEq

deriving instance DecidableEq for Except

/-- PayloadType from network_manager.rs: the disposition tag attached to a
frame returned by `receive_packet`. -/
inductive PayloadType
  | Data
  | Command
  | ACK
  | Bootup
deriving DecidableEq

/-- RecentSeen ring buffer from network_manager.rs: array of `N` optional
`(source_id, packet_id)` pairs plus a write cursor. The capacity `N` is the
length of `buffer`. -/
structure RecentSeen where
  buffer : List (Option (Nat × Nat))
  cursor : Nat
deriving DecidableEq

namespace RecentSeen

/-- RecentSeen::new with capacity `N`: all slots empty, cursor 0. -/
def new (N : Nat) : RecentSeen :=
  { buffer := List.replicate N none, cursor := 0 }

/-- RecentSeen::push: write at the cursor, advance the cursor modulo `N`. -/
def push (rs : RecentSeen) (pid : Nat × Nat) : RecentSeen :=
  { buffer := rs.buffer.set rs.cursor (some pid),
    cursor := (rs.cursor + 1) % rs.buffer.length }

/-- RecentSeen::contains: linear scan for `Some pid`. -/
def contains (rs : RecentSeen) (pid : Nat × Nat) : Bool :=
  decide (some pid ∈ rs.buffer)

end RecentSeen

/-- NetworkManager state from network_manager.rs. The const generics `SIZE`
(payload capacity) and `LEN` (pending-table / batch capacity) are passed to
the operations that check them. The Rust field `_max_retries` is named
`max_retries` here. -/
structure NetworkManager where
  pending_acks : List PendingPacket
  next_packet_id : Nat
  recent_seen : RecentSeen
  gw_hops : Nat
  source_id : Nat
  timeout : Nat
  max_retries : Nat
deriving DecidableEq

namespace NetworkManager

/-- NetworkManager::new: empty pending table, packet id 0, empty ring of
capacity `LEN`, `gw_hops` initialised to the sentinel 255. -/
def new (LEN : Nat) (source_id timeout max_retries : Nat) : NetworkManager :=
  { pending_acks := []
    next_packet_id := 0
    recent_seen := RecentSeen.new LEN
    gw_hops := 255
    source_id := source_id
    timeout := timeout
    max_retries := max_retries }

/-- NetworkManager::new_packet: increment `next_packet_id` (u16, wrapping)
and mint a Data frame carrying the payload, `hop_count = 0` and
`hop_to_gw = gw_hops`. The Rust signature is fallible but the body always
returns `Ok`. -/
def new_packet (nm : NetworkManager) (payload : List Nat) (destination : Nat) :
    NetworkManager × MHPacket :=
  let nid := (nm.next_packet_id + 1) % 65536
  ({ nm with next_packet_id := nid },
   { destination_id := destination
     packet_type := PacketType.Data
     packet_id := nid
     source_id := nm.source_id
     payload := payload
     hop_count := 0
     hop_to_gw := nm.gw_hops })

/-- NetworkManager::add_packet: append a pending entry with deadline
`now + timeout` and zero retries; `BufferFull` when the pending table already
holds `LEN` entries. -/
def add_packet (LEN : Nat) (now : Nat) (nm : NetworkManager) (packet : MHPacket) :
    Except NetworkManagerError NetworkManager :=
  let pend_pkt : PendingPacket := { packet := packet, timeout := now + nm.timeout, retries := 0 }
  if nm.pending_acks.length < LEN then
    Except.ok { nm with pending_acks := nm.pending_acks ++ [pend_pkt] }
  else
    Except.error NetworkManagerError.BufferFull

/-- Retain step of NetworkManager::payload_to_send, verbatim from the source:
`retain(|p| p.retries < self._max_retries || p.timeout < curr_time)`. An
entry survives when its retries are below the budget OR its deadline has
already passed. -/
def gcRetain (now : Nat) (nm : NetworkManager) : List PendingPacket :=
  nm.pending_acks.filter fun p =>
    decide (p.retries < nm.max_retries) || decide (p.timeout < now)

/-- Due-retransmission selection of NetworkManager::payload_to_send: the
entries whose deadline lies in the past. -/
def dueOf (now : Nat) (l : List PendingPacket) : List PendingPacket :=
  l.filter fun p => decide (p.timeout < now)

/-- Retry increment of NetworkManager::payload_to_send: every due entry has
its `retries` bumped (u8, wrapping); deadlines are not refreshed. -/
def bumpDue (now : Nat) (l : List PendingPacket) : List PendingPacket :=
  l.map fun p =>
    if p.timeout < now then { p with retries := (p.retries + 1) % 256 } else p

/-- NetworkManager::payload_to_send: retain-based garbage collection, due
retransmission selection with retry increment, then mint the new frame, push
it onto the batch if the batch has room, and only in that case insert its
pending entry (whose failure propagates as `BufferFull`). -/
def payload_to_send (LEN : Nat) (now : Nat) (nm : NetworkManager)
    (payload : List Nat) (destination : Nat) :
    Except NetworkManagerError (NetworkManager × List MHPacket) :=
  let gc := gcRetain now nm
  let to_send := (dueOf now gc).map fun p => p.packet
  let nm1 : NetworkManager := { nm with pending_acks := bumpDue now gc }
  let minted := new_packet nm1 payload destination
  if to_send.length < LEN then
    match add_packet LEN now minted.1 minted.2 with
    | Except.ok nm3 => Except.ok (nm3, to_send ++ [minted.2])
    | Except.error e => Except.error e
  else
    Except.ok (minted.1, to_send)

/-- Predicate of the pending scan in NetworkManager::receive_packet: the
stored frame has the incoming packet id, and either the same source, or the
incoming frame is an Ack addressed to the stored frame's source. -/
def pendingMatches (p : PendingPacket) (pkt : MHPacket) : Bool :=
  decide (p.packet.packet_id = pkt.packet_id) &&
    (decide (p.packet.source_id = pkt.source_id) ||
      (decide (pkt.packet_type = PacketType.Ack) &&
        decide (pkt.destination_id = p.packet.source_id)))

/-- Forwarding-eligibility predicate of NetworkManager::receive_packet:
gateway-bound frames (`destination_id == 1`) are forwarded when this node is
strictly closer to the gateway; node-to-node frames when this node's identity
lies between source and destination. -/
def should_forward (nm : NetworkManager) (pkt : MHPacket) : Bool :=
  if pkt.destination_id = 1 then
    decide (nm.gw_hops < pkt.hop_to_gw)
  else
    decide (min pkt.source_id pkt.destination_id ≤ nm.source_id) &&
      decide (nm.source_id ≤ max pkt.destination_id pkt.source_id)

/-- NetworkManager::receive_packet: the per-frame routing decision. Order:
BootUp beacons, pending-table acknowledgement, recent-seen duplicate
suppression, first-sight delivery or forwarding. -/
def receive_packet (LEN : Nat) (now : Nat) (nm : NetworkManager) (pkt : MHPacket) :
    Except NetworkManagerError (NetworkManager × Option (MHPacket × PayloadType)) :=
  if pkt.packet_type = PacketType.BootUp then
    if nm.gw_hops ≤ pkt.hop_count then
      Except.ok (nm, none)
    else
      Except.ok
        ({ nm with
            gw_hops := (pkt.hop_count + 1) % 256
            recent_seen := nm.recent_seen.push (pkt.source_id, pkt.packet_id) },
         some (pkt, PayloadType.Bootup))
  else
    match nm.pending_acks.findIdx? (fun p => pendingMatches p pkt) with
    | some i =>
      Except.ok ({ nm with pending_acks := nm.pending_acks.eraseIdx i }, none)
    | none =>
      if nm.recent_seen.contains (pkt.source_id, pkt.packet_id) then
        if pkt.packet_type = PacketType.Ack then
          Except.ok (nm, none)
        else
          Except.ok (nm, some (pkt, PayloadType.ACK))
      else
        let nm1 : NetworkManager :=
          { nm with recent_seen := nm.recent_seen.push (pkt.source_id, pkt.packet_id) }
        if pkt.destination_id = nm.source_id then
          Except.ok (nm1, some (pkt, PayloadType.Command))
        else
          if should_forward nm pkt then
            let increased : MHPacket := { pkt with hop_to_gw := nm.gw_hops }
            match add_packet LEN now nm1 increased with
            | Except.ok nm2 => Except.ok (nm2, some (increased, PayloadType.Data))
            | Except.error e => Except.error e
          else
            Except.ok (nm1, none)

/-- Loop body of NetworkManager::handle_packets: frames whose
`receive_packet` errors are skipped; a failed push onto `to_send` or
`commands` (capacity `LEN`), or a failed `Vec::from_slice(&[0u8])`
(payload capacity `SIZE`), aborts the whole call with `BufferFull`. -/
def handle_packets_go (SIZE LEN : Nat) (now : Nat) :
    NetworkManager → List MHPacket → List MHPacket → List MHPacket →
    Except NetworkManagerError (NetworkManager × List MHPacket × List MHPacket)
  | nm, [], to_send, commands => Except.ok (nm, to_send, commands)
  | nm, pkt :: rest, to_send, commands =>
    match receive_packet LEN now nm pkt with
    | Except.error _ => handle_packets_go SIZE LEN now nm rest to_send commands
    | Except.ok (nm', none) => handle_packets_go SIZE LEN now nm' rest to_send commands
    | Except.ok (nm', some (packet, ptype)) =>
      match ptype with
      | PayloadType.Data =>
        if to_send.length < LEN then
          handle_packets_go SIZE LEN now nm' rest (to_send ++ [packet]) commands
        else
          Except.error NetworkManagerError.BufferFull
      | PayloadType.Command =>
        if commands.length < LEN then
          handle_packets_go SIZE LEN now nm' rest to_send (commands ++ [packet])
        else
          Except.error NetworkManagerError.BufferFull
      | PayloadType.ACK =>
        if 1 ≤ SIZE then
          let ack : MHPacket :=
            { destination_id := packet.source_id
              packet_type := PacketType.Ack
              packet_id := packet.packet_id
              source_id := nm'.source_id
              payload := [0]
              hop_count := 0
              hop_to_gw := nm'.gw_hops }
          if to_send.length < LEN then
            handle_packets_go SIZE LEN now nm' rest (to_send ++ [ack]) commands
          else
            Except.error NetworkManagerError.BufferFull
        else
          Except.error NetworkManagerError.BufferFull
      | PayloadType.Bootup =>
        if 1 ≤ SIZE then
          let relay : MHPacket :=
            { destination_id := packet.destination_id
              packet_type := PacketType.BootUp
              packet_id := packet.packet_id
              source_id := nm'.source_id
              payload := [0]
              hop_count := (packet.hop_count + 1) % 256
              hop_to_gw := nm'.gw_hops }
          if to_send.length < LEN then
            handle_packets_go SIZE LEN now nm' rest (to_send ++ [relay]) commands
          else
            Except.error NetworkManagerError.BufferFull
        else
          Except.error NetworkManagerError.BufferFull

/-- NetworkManager::handle_packets: fold `receive_packet` over the batch,
materialising each disposition into `to_send` (forwards, synthesized Acks,
BootUp relays) or `commands` (frames for the application). -/
def handle_packets (SIZE LEN : Nat) (now : Nat) (nm : NetworkManager)
    (pkts : List MHPacket) :
    Except NetworkManagerError (NetworkManager × List MHPacket × List MHPacket) :=
  handle_packets_go SIZE LEN now nm pkts [] []

end NetworkManager

/-- Ack frame synthesized by GatewayPolicy::process_packets for one incoming
frame: destination is the frame's source, source is the frame's destination,
empty payload, zero hop counters. -/
def gatewayAckFor (pkt : MHPacket) : MHPacket :=
  { destination_id := pkt.source_id
    source_id := pkt.destination_id
    packet_type := PacketType.Ack
    payload := []
    packet_id := pkt.packet_id
    hop_count := 0
    hop_to_gw := 0 }

/-- GatewayPolicy::process_packets (policy.rs): ignores the manager, answers
every non-Ack, non-source-0 frame of the batch with a synthesized Ack, and
hands the whole batch to the application. -/
def GatewayPolicy.process_packets (nm : NetworkManager) (pkts : List MHPacket) :
    Except NetworkManagerError (NetworkManager × List MHPacket × List MHPacket) :=
  let to_send := (pkts.filter fun pkt =>
      !decide (pkt.packet_type = PacketType.Ack) && !decide (pkt.source_id = 0)).map
    gatewayAckFor
  Except.ok (nm, to_send, pkts)

/-- NodePolicy::process_packets (policy.rs): delegates verbatim to
NetworkManager::handle_packets. -/
def NodePolicy.process_packets (SIZE LEN : Nat) (now : Nat) (nm : NetworkManager)
    (pkts : List MHPacket) :
    Except NetworkManagerError (NetworkManager × List MHPacket × List MHPacket) :=
  NetworkManager.handle_packets SIZE LEN now nm pkts

/-! Concrete fixtures used by the counterexamples and witnesses below. -/

/-- Concrete manager: node 3, timeout 10 s, max_retries 3, capacities 4. -/
def nmW : NetworkManager := NetworkManager.new 4 3 10 3

/-- Concrete BootUp beacon with hop_count 2. -/
def pktBootW : MHPacket :=
  { destination_id := 0, packet_type := PacketType.BootUp, packet_id := 9,
    source_id := 1, payload := [], hop_count := 2, hop_to_gw := 0 }

/-- Concrete Data frame minted by node 3 towards the gateway. -/
def pktDataW : MHPacket :=
  { destination_id := 1, packet_type := PacketType.Data, packet_id := 7,
    source_id := 3, payload := [1], hop_count := 0, hop_to_gw := 255 }

/-- Manager holding one pending entry for `pktDataW`. -/
def nmPend : NetworkManager := { nmW with pending_acks := [⟨pktDataW, 20, 0⟩] }

/-- Re-broadcast of `pktDataW` by another node (same source and packet id):
a passive acknowledgement. -/
def pktEcho : MHPacket :=
  { destination_id := 9, packet_type := PacketType.Data, packet_id := 7,
    source_id := 3, payload := [1], hop_count := 1, hop_to_gw := 4 }

/-- Pending frame whose entry has exhausted its retries and whose deadline
(5) lies in the past at `now = 10`. -/
def pktA : MHPacket :=
  { destination_id := 1, packet_type := PacketType.Data, packet_id := 100,
    source_id := 3, payload := [2], hop_count := 0, hop_to_gw := 255 }

/-- Pending frame whose entry has exhausted its retries but whose deadline
(15) has not yet passed at `now = 10`. -/
def pktB : MHPacket :=
  { destination_id := 1, packet_type := PacketType.Data, packet_id := 101,
    source_id := 3, payload := [3], hop_count := 0, hop_to_gw := 255 }

/-- Manager whose pending table holds one exhausted-and-expired entry
(`pktA`, retries 3 = max_retries, deadline 5) and one exhausted-but-fresh
entry (`pktB`, retries 3, deadline 15). -/
def nmGC : NetworkManager :=
  { nmW with pending_acks := [⟨pktA, 5, 3⟩, ⟨pktB, 15, 3⟩] }

/-- Frame minted by `payload_to_send` on `nmGC` for payload `[7]`, destination 1. -/
def mintedGC : MHPacket :=
  { destination_id := 1, packet_type := PacketType.Data, packet_id := 1,
    source_id := 3, payload := [7], hop_count := 0, hop_to_gw := 255 }

/-- Gateway-bound data frame from node 5, duplicated three times in the
gateway scenario of the spec. -/
def dupFrame : MHPacket :=
  { destination_id := 1, packet_type := PacketType.Data, packet_id := 42,
    source_id := 5, payload := [1], hop_count := 0, hop_to_gw := 3 }

/-- Batch of three identical copies of `dupFrame`. -/
def batchDup : List MHPacket := [dupFrame, dupFrame, dupFrame]

/-- Manager with pending capacity 1 whose single slot is taken by a due
entry for `pktA` with retries below the budget. -/
def nmC3 : NetworkManager :=
  { NetworkManager.new 1 3 10 3 with pending_acks := [⟨pktA, 5, 0⟩] }

/-- Pending frame unrelated to any incoming frame of the fixtures. -/
def pktOther : MHPacket :=
  { destination_id := 1, packet_type := PacketType.Data, packet_id := 99,
    source_id := 8, payload := [4], hop_count := 0, hop_to_gw := 255 }

/-- Manager with pending capacity 1, full (entry for `pktOther`), two hops
from the gateway. -/
def nmC4 : NetworkManager :=
  { NetworkManager.new 1 3 10 3 with gw_hops := 2, pending_acks := [⟨pktOther, 20, 0⟩] }

/-- Gateway-bound frame from node 5 whose sender advertises distance 10. -/
def pktGwb : MHPacket :=
  { destination_id := 1, packet_type := PacketType.Data, packet_id := 9,
    source_id := 5, payload := [1], hop_count := 0, hop_to_gw := 10 }

/-- Manager two hops from the gateway with a free pending table. -/
def nmC4ok : NetworkManager := { NetworkManager.new 4 3 10 3 with gw_hops := 2 }

/-- Manager of node 4, fresh (everything empty, gw_hops 255). -/
def nmC7 : NetworkManager := NetworkManager.new 4 4 10 3

/-- Data frame from node 5 to node 3, overheard by node 4 (which lies
between source and destination on the identity line). -/
def f7 : MHPacket :=
  { destination_id := 3, packet_type := PacketType.Data, packet_id := 7,
    source_id := 5, payload := [1], hop_count := 0, hop_to_gw := 0 }

/-- The forwarded copy of `f7` after node 4 rewrote `hop_to_gw` to its own
gateway distance (255). -/
def f7fwd : MHPacket := { f7 with hop_to_gw := 255 }

/-- State of node 4 after first hearing (and forwarding) `f7` at `now = 0`. -/
def nmC7b : NetworkManager :=
  { nmC7 with
      recent_seen := ⟨[some (5, 7), none, none, none], 1⟩
      pending_acks := [⟨f7fwd, 10, 0⟩] }

/-- State of node 4 after the second receipt of `f7` removed the pending
entry created by the forward. -/
def nmC7c : NetworkManager := { nmC7b with pending_acks := [] }

/-- Data frame addressed to node 3 itself, used by the duplicate-ACK witness. -/
def fToUs : MHPacket :=
  { destination_id := 3, packet_type := PacketType.Data, packet_id := 11,
    source_id := 6, payload := [2], hop_count := 0, hop_to_gw := 0 }

/-- BootUp beacon whose destination field is the non-broadcast value 7. -/
def fBoot9 : MHPacket :=
  { destination_id := 7, packet_type := PacketType.BootUp, packet_id := 1,
    source_id := 1, payload := [], hop_count := 0, hop_to_gw := 0 }

/-- Relay that node 3 emits for `fBoot9`: the destination is copied from the
original frame (7), not rewritten to broadcast. -/
def relay9 : MHPacket :=
  { destination_id := 7, packet_type := PacketType.BootUp, packet_id := 1,
    source_id := 3, payload := [0], hop_count := 1, hop_to_gw := 1 }

/-! Theorems. -/

/-- C5: for every BootUp frame processed by `receive_packet` (on a manager
whose `gw_hops` fits in a u8), `gw_hops` never increases; a `Bootup` relay
disposition is returned iff the beacon's `hop_count` is strictly below the
previous `gw_hops`; and on relay the new `gw_hops` is `hop_count + 1` and
`(source_id, packet_id)` is pushed into `recent_seen`. -/
theorem bootup_monotone_relay (LEN now : Nat) (nm : NetworkManager) (pkt : MHPacket)
    (hty : pkt.packet_type = PacketType.BootUp) (hgw : nm.gw_hops ≤ 255) :
    ∃ nm' out, NetworkManager.receive_packet LEN now nm pkt = Except.ok (nm', out) ∧
      nm'.gw_hops ≤ nm.gw_hops ∧
      (out = some (pkt, PayloadType.Bootup) ↔ pkt.hop_count < nm.gw_hops) ∧
      (pkt.hop_count < nm.gw_hops →
        nm'.gw_hops = pkt.hop_count + 1 ∧
        nm'.recent_seen = nm.recent_seen.push (pkt.source_id, pkt.packet_id)) := by
  simp only [NetworkManager.receive_packet, hty, if_true]
  by_cases h : nm.gw_hops ≤ pkt.hop_count
  · refine ⟨nm, none, by simp [h], Nat.le_refl _, ?_, ?_⟩
    · constructor
      · intro hc
        exact absurd hc (by simp)
      · intro hlt
        exact absurd h (Nat.not_le.mpr hlt)
    · intro hlt
      exact absurd h (Nat.not_le.mpr hlt)
  · have hlt : pkt.hop_count < nm.gw_hops := Nat.lt_of_not_le h
    have hmod : (pkt.hop_count + 1) % 256 = pkt.hop_count + 1 :=
      Nat.mod_eq_of_lt (by omega)
    refine ⟨{ nm with
                gw_hops := (pkt.hop_count + 1) % 256
                recent_seen := nm.recent_seen.push (pkt.source_id, pkt.packet_id) },
            some (pkt, PayloadType.Bootup), by simp [h], ?_, ?_, ?_⟩
    · simp only [hmod]
      omega
    · simp [hlt]
    · intro _
      exact ⟨hmod, rfl⟩

/-- C5 witness: the beacon `pktBootW` (hop_count 2) processed by the fresh
manager `nmW` (gw_hops 255) is relayed and sets gw_hops to 3. -/
theorem bootup_monotone_relay_witness :
    ∃ nm' out, NetworkManager.receive_packet 4 0 nmW pktBootW = Except.ok (nm', out) ∧
      nm'.gw_hops ≤ nmW.gw_hops ∧
      (out = some (pktBootW, PayloadType.Bootup) ↔ pktBootW.hop_count < nmW.gw_hops) ∧
      (pktBootW.hop_count < nmW.gw_hops →
        nm'.gw_hops = pktBootW.hop_count + 1 ∧
        nm'.recent_seen = nmW.recent_seen.push (pktBootW.source_id, pktBootW.packet_id)) :=
  bootup_monotone_relay 4 0 nmW pktBootW (by decide) (by decide)

/-- C6: when the incoming frame is not a BootUp beacon and the pending scan
finds a matching entry at index `i`, `receive_packet` removes exactly that
entry and returns `None`, leaving `recent_seen`, `gw_hops` and
`next_packet_id` (and every other field) unchanged. -/
theorem pending_ack_removal (LEN now : Nat) (nm : NetworkManager) (pkt : MHPacket) (i : Nat)
    (hty : ¬ pkt.packet_type = PacketType.BootUp)
    (hfind : nm.pending_acks.findIdx? (fun p => NetworkManager.pendingMatches p pkt) = some i) :
    NetworkManager.receive_packet LEN now nm pkt =
      Except.ok ({ nm with pending_acks := nm.pending_acks.eraseIdx i }, none) := by
  simp only [NetworkManager.receive_packet, hty, if_false, hfind]

/-- C6 witness: `pktEcho` (same source and packet id as the pending
`pktDataW`) removes the single pending entry of `nmPend` and returns `None`. -/
theorem pending_ack_removal_witness :
    NetworkManager.receive_packet 4 0 nmPend pktEcho =
      Except.ok ({ nmPend with pending_acks := nmPend.pending_acks.eraseIdx 0 }, none) :=
  pending_ack_removal 4 0 nmPend pktEcho 0 (by decide) (by decide)

/-- C1: the garbage-collection step of `payload_to_send` does the opposite of
the documented behaviour. On `nmGC` (max_retries 3) at `now = 10`, the entry
for `pktA` (retries 3, deadline 5 already past) is RETAINED — and then
retransmitted with its retries bumped to 4, past the budget — while the entry
for `pktB` (retries 3, deadline 15 still in the future) is REMOVED. -/
theorem gc_retains_exhausted_expired_entry :
    NetworkManager.gcRetain 10 nmGC = [⟨pktA, 5, 3⟩] ∧
    NetworkManager.payload_to_send 4 10 nmGC [7] 1 =
      Except.ok ({ nmGC with
                    pending_acks := [⟨pktA, 5, 4⟩, ⟨mintedGC, 20, 0⟩]
                    next_packet_id := 1 }, [pktA, mintedGC]) := by decide

/-- C2 counterexample: a gateway running GatewayPolicy on a batch of three
identical frames `(src 5, pid 42, Data)` emits THREE synthesized Ack frames,
not one — `recent_seen` is never consulted by GatewayPolicy. -/
theorem gateway_three_duplicates_cex :
    GatewayPolicy.process_packets nmW batchDup =
      Except.ok (nmW, [gatewayAckFor dupFrame, gatewayAckFor dupFrame, gatewayAckFor dupFrame],
        batchDup) ∧
    ([gatewayAckFor dupFrame, gatewayAckFor dupFrame, gatewayAckFor dupFrame] :
      List MHPacket).length ≠ 1 := by decide

/-- C2 amended: on the three-duplicate batch, GatewayPolicy returns one
synthesized Ack per duplicate (three in total, no dedup) in `to_send` and
hands all three original frames to the application, for any manager state. -/
theorem gateway_three_duplicates_acks (nm : NetworkManager) :
    GatewayPolicy.process_packets nm batchDup =
      Except.ok (nm, [gatewayAckFor dupFrame, gatewayAckFor dupFrame, gatewayAckFor dupFrame],
        batchDup) := rfl

/-- C3 counterexample: with pending capacity `LEN = 1` and one due
retransmission, `payload_to_send` fills the batch with the retransmission,
silently drops the newly minted frame (packet id 1, payload `[9]`) and
returns `Ok` — although the pending table is full, no `BufferFull` is
reported, and no retransmission is truncated to make room for the new frame. -/
theorem payload_to_send_drops_new_frame_cex :
    NetworkManager.payload_to_send 1 10 nmC3 [9] 2 =
      Except.ok ({ nmC3 with
                    pending_acks := [⟨pktA, 5, 1⟩]
                    next_packet_id := 1 }, [pktA]) ∧
    nmC3.pending_acks.length = 1 ∧
    ({ destination_id := 2, packet_type := PacketType.Data, packet_id := 1, source_id := 3,
       payload := [9], hop_count := 0, hop_to_gw := 255 } : MHPacket) ∉ [pktA] := by decide

/-- C4 counterexample: a gateway-bound frame that passes every eligibility
test (`nmC4.gw_hops = 2 < 10 = pktGwb.hop_to_gw`) is NOT forwarded when the
pending table is full — `receive_packet` returns a `BufferFull` error, which
is neither a forward nor `None`. -/
theorem gateway_bound_full_table_cex :
    NetworkManager.receive_packet 1 0 nmC4 pktGwb = Except.error NetworkManagerError.BufferFull ∧
    nmC4.gw_hops < pktGwb.hop_to_gw := by decide

/-- C7 counterexample: node 4 hears `f7` (src 5 → dest 3, Data) twice. The
first receipt forwards it (creating a pending entry for the rewritten copy),
the second receipt matches that pending entry as a passive acknowledgement
and is swallowed — so ZERO synthesized Acks are emitted across the two calls,
not exactly one. -/
theorem duplicate_ack_forwarded_frame_cex :
    NodePolicy.process_packets 40 4 0 nmC7 [f7] = Except.ok (nmC7b, [f7fwd], []) ∧
    NodePolicy.process_packets 40 4 5 nmC7b [f7] = Except.ok (nmC7c, [], []) ∧
    f7.packet_type ≠ PacketType.Ack ∧
    ([f7fwd].filter fun p => decide (p.packet_type = PacketType.Ack)) = [] := by decide

/-- C3 amended: the batch built by `payload_to_send` holds the due
retransmissions in pending-table order; the newly minted frame is appended
last only when fewer than `LEN` retransmissions are due (retransmissions are
never truncated for it); in that case the call returns `BufferFull` — and
discards the whole batch — exactly when the garbage-collected pending table
is full; when the batch is already full of retransmissions, the new frame is
silently dropped, no pending entry is created, and the call returns `Ok`. -/
theorem payload_to_send_batch_shape (LEN now : Nat) (nm : NetworkManager)
    (payload : List Nat) (destination : Nat) :
    ((NetworkManager.dueOf now (NetworkManager.gcRetain now nm)).length < LEN →
      ((NetworkManager.gcRetain now nm).length < LEN →
        NetworkManager.payload_to_send LEN now nm payload destination =
          Except.ok
            ({ nm with
                pending_acks :=
                  NetworkManager.bumpDue now (NetworkManager.gcRetain now nm) ++
                    [⟨{ destination_id := destination, packet_type := PacketType.Data,
                        packet_id := (nm.next_packet_id + 1) % 65536,
                        source_id := nm.source_id, payload := payload, hop_count := 0,
                        hop_to_gw := nm.gw_hops }, now + nm.timeout, 0⟩]
                next_packet_id := (nm.next_packet_id + 1) % 65536 },
             (NetworkManager.dueOf now (NetworkManager.gcRetain now nm)).map (fun p => p.packet)
               ++ [{ destination_id := destination, packet_type := PacketType.Data,
                     packet_id := (nm.next_packet_id + 1) % 65536,
                     source_id := nm.source_id, payload := payload, hop_count := 0,
                     hop_to_gw := nm.gw_hops }])) ∧
      (¬ (NetworkManager.gcRetain now nm).length < LEN →
        NetworkManager.payload_to_send LEN now nm payload destination =
          Except.error NetworkManagerError.BufferFull)) ∧
    (¬ (NetworkManager.dueOf now (NetworkManager.gcRetain now nm)).length < LEN →
      NetworkManager.payload_to_send LEN now nm payload destination =
        Except.ok
          ({ nm with
              pending_acks := NetworkManager.bumpDue now (NetworkManager.gcRetain now nm)
              next_packet_id := (nm.next_packet_id + 1) % 65536 },
           (NetworkManager.dueOf now (NetworkManager.gcRetain now nm)).map fun p => p.packet)) := by
  simp only [NetworkManager.payload_to_send, NetworkManager.new_packet,
    NetworkManager.add_packet, NetworkManager.bumpDue, List.length_map]
  refine ⟨fun hdue => ⟨fun hgc => ?_, fun hgc => ?_⟩, fun hdue => ?_⟩
  · rw [if_pos hdue, if_pos hgc]
  · rw [if_pos hdue, if_neg hgc]
  · rw [if_neg hdue]

/-- C3 witness: on `nmPend` at `now = 10` nothing is due, the batch is the
minted frame alone and a pending entry for it is appended. -/
theorem payload_to_send_batch_shape_witness :
    NetworkManager.payload_to_send 4 10 nmPend [7] 1 =
      Except.ok
        ({ nmPend with
            pending_acks :=
              NetworkManager.bumpDue 10 (NetworkManager.gcRetain 10 nmPend) ++
                [⟨{ destination_id := 1, packet_type := PacketType.Data,
                    packet_id := (nmPend.next_packet_id + 1) % 65536,
                    source_id := nmPend.source_id, payload := [7], hop_count := 0,
                    hop_to_gw := nmPend.gw_hops }, 10 + nmPend.timeout, 0⟩]
            next_packet_id := (nmPend.next_packet_id + 1) % 65536 },
         (NetworkManager.dueOf 10 (NetworkManager.gcRetain 10 nmPend)).map (fun p => p.packet)
           ++ [{ destination_id := 1, packet_type := PacketType.Data,
                 packet_id := (nmPend.next_packet_id + 1) % 65536,
                 source_id := nmPend.source_id, payload := [7], hop_count := 0,
                 hop_to_gw := nmPend.gw_hops }]) :=
  ((payload_to_send_batch_shape 4 10 nmPend [7] 1).1 (by decide)).1 (by decide)

/-- C4 amended: for an incoming non-BootUp frame that matches no pending
entry, is not in `recent_seen`, is not addressed to this node and is
gateway-bound, `receive_packet` forwards iff `gw_hops < hop_to_gw` AND the
pending table has room: on forward the rewritten frame (its `hop_to_gw` set
to this node's `gw_hops`) is returned and a pending entry holding it is
inserted; when the distance test fails the result is `None`; when the
distance test passes but the pending table is full the call returns a
`BufferFull` error instead of forwarding. -/
theorem gateway_bound_forwarding (LEN now : Nat) (nm : NetworkManager) (pkt : MHPacket)
    (hty : ¬ pkt.packet_type = PacketType.BootUp)
    (hpend : nm.pending_acks.findIdx? (fun p => NetworkManager.pendingMatches p pkt) = none)
    (hseen : nm.recent_seen.contains (pkt.source_id, pkt.packet_id) = false)
    (hnotus : ¬ pkt.destination_id = nm.source_id)
    (hgwb : pkt.destination_id = 1) :
    (nm.gw_hops < pkt.hop_to_gw →
      (nm.pending_acks.length < LEN →
        NetworkManager.receive_packet LEN now nm pkt =
          Except.ok
            ({ nm with
                pending_acks :=
                  nm.pending_acks ++
                    [⟨{ pkt with hop_to_gw := nm.gw_hops }, now + nm.timeout, 0⟩]
                recent_seen := nm.recent_seen.push (pkt.source_id, pkt.packet_id) },
             some ({ pkt with hop_to_gw := nm.gw_hops }, PayloadType.Data))) ∧
      (¬ nm.pending_acks.length < LEN →
        NetworkManager.receive_packet LEN now nm pkt =
          Except.error NetworkManagerError.BufferFull)) ∧
    (¬ nm.gw_hops < pkt.hop_to_gw →
      NetworkManager.receive_packet LEN now nm pkt =
        Except.ok ({ nm with recent_seen := nm.recent_seen.push (pkt.source_id, pkt.packet_id) },
          none)) := by
  rw [hgwb] at hnotus
  simp only [NetworkManager.receive_packet, NetworkManager.should_forward, hty, hpend, hseen,
    hnotus, hgwb, NetworkManager.add_packet, if_false, Bool.false_eq_true, decide_eq_true_eq,
    if_true]
  refine ⟨fun hin => ⟨fun hroom => ?_, fun hroom => ?_⟩, fun hin => ?_⟩
  · rw [if_pos hin, if_pos hroom]
  · rw [if_pos hin, if_neg hroom]
  · rw [if_neg hin]

/-- C4 witness: `pktGwb` (sender distance 10) arriving at `nmC4ok`
(distance 2, free table) is forwarded with `hop_to_gw` rewritten to 2 and a
pending entry inserted. -/
theorem gateway_bound_forwarding_witness :
    NetworkManager.receive_packet 4 0 nmC4ok pktGwb =
      Except.ok
        ({ nmC4ok with
            pending_acks :=
              nmC4ok.pending_acks ++
                [⟨{ pktGwb with hop_to_gw := nmC4ok.gw_hops }, 0 + nmC4ok.timeout, 0⟩]
            recent_seen := nmC4ok.recent_seen.push (pktGwb.source_id, pktGwb.packet_id) },
         some ({ pktGwb with hop_to_gw := nmC4ok.gw_hops }, PayloadType.Data)) :=
  ((gateway_bound_forwarding 4 0 nmC4ok pktGwb (by decide) (by decide) (by decide)
      (by decide) (by decide)).1 (by decide)).1 (by decide)

/-- C9 counterexample: the relay synthesized for the BootUp frame `fBoot9`
(whose `destination_id` is 7) carries `destination_id` 7, copied from the
original frame — not the broadcast address 0 stated by the claim. -/
theorem bootup_relay_destination_cex :
    NetworkManager.handle_packets 40 4 0 nmW [fBoot9] =
      Except.ok ({ nmW with
                    gw_hops := 1
                    recent_seen := ⟨[some (1, 1), none, none, none], 1⟩ }, [relay9], []) ∧
    relay9.destination_id ≠ 0 ∧ fBoot9.destination_id = 7 := by decide

/-- C9 amended: for a BootUp frame that improves the gateway-distance
estimate, `handle_packets` appends a relay whose `destination_id` is COPIED
from the original frame (0 for gateway-minted beacons, but not rewritten),
whose source is this node, whose type is BootUp, whose packet id is the
original's, whose `hop_count` is the original's plus one and whose
`hop_to_gw` is this node's (just updated) `gw_hops`; its payload is `[0]`. -/
theorem bootup_relay_frame_shape (SIZE LEN now : Nat) (nm : NetworkManager) (pkt : MHPacket)
    (hty : pkt.packet_type = PacketType.BootUp)
    (himp : pkt.hop_count < nm.gw_hops)
    (hgw : nm.gw_hops ≤ 255) (hS : 1 ≤ SIZE) (hL : 1 ≤ LEN) :
    NetworkManager.handle_packets SIZE LEN now nm [pkt] =
      Except.ok
        ({ nm with
            gw_hops := pkt.hop_count + 1
            recent_seen := nm.recent_seen.push (pkt.source_id, pkt.packet_id) },
         [{ destination_id := pkt.destination_id, packet_type := PacketType.BootUp,
            packet_id := pkt.packet_id, source_id := nm.source_id, payload := [0],
            hop_count := pkt.hop_count + 1, hop_to_gw := pkt.hop_count + 1 }], []) := by
  have hmod : (pkt.hop_count + 1) % 256 = pkt.hop_count + 1 := Nat.mod_eq_of_lt (by omega)
  have hnot : ¬ nm.gw_hops ≤ pkt.hop_count := Nat.not_le.mpr himp
  have hL0 : ([] : List MHPacket).length < LEN := by simpa using hL
  simp only [NetworkManager.handle_packets, NetworkManager.handle_packets_go,
    NetworkManager.receive_packet, hty, if_true, hnot, if_false, hmod]
  rw [if_pos hS, if_pos hL0]
  simp only [NetworkManager.handle_packets_go, List.nil_append]

/-- C9 witness: node 3 (`nmW`, gw_hops 255) relays the beacon `fBoot9`
copying its destination 7, with hop_count and hop_to_gw set to 1. -/
theorem bootup_relay_frame_shape_witness :
    NetworkManager.handle_packets 40 4 0 nmW [fBoot9] =
      Except.ok
        ({ nmW with
            gw_hops := fBoot9.hop_count + 1
            recent_seen := nmW.recent_seen.push (fBoot9.source_id, fBoot9.packet_id) },
         [{ destination_id := fBoot9.destination_id, packet_type := PacketType.BootUp,
            packet_id := fBoot9.packet_id, source_id := nmW.source_id, payload := [0],
            hop_count := fBoot9.hop_count + 1, hop_to_gw := fBoot9.hop_count + 1 }], []) :=
  bootup_relay_frame_shape 40 4 0 nmW fBoot9 (by decide) (by decide) (by decide)
    (by decide) (by decide)

/-- Totality helper for `handle_packets_go`: with a nonzero payload capacity
and enough headroom in both accumulators for the remaining frames, the fold
never aborts. -/
theorem handle_packets_go_ok (SIZE LEN now : Nat) (pkts : List MHPacket) :
    ∀ (nm : NetworkManager) (to_send commands : List MHPacket),
      1 ≤ SIZE → to_send.length + pkts.length ≤ LEN → commands.length + pkts.length ≤ LEN →
      ∃ r, NetworkManager.handle_packets_go SIZE LEN now nm pkts to_send commands =
        Except.ok r := by
  induction pkts with
  | nil =>
    intro nm ts cs _ _ _
    exact ⟨(nm, ts, cs), rfl⟩
  | cons pkt rest ih =>
    intro nm ts cs hS hts hcs
    simp only [List.length_cons] at hts hcs
    simp only [NetworkManager.handle_packets_go]
    cases hr : NetworkManager.receive_packet LEN now nm pkt with
    | error e =>
      exact ih nm ts cs hS (by omega) (by omega)
    | ok out =>
      obtain ⟨nm', opt⟩ := out
      cases opt with
      | none => exact ih nm' ts cs hS (by omega) (by omega)
      | some pp =>
        obtain ⟨packet, ptype⟩ := pp
        cases ptype with
        | Data =>
          dsimp only
          rw [if_pos (by omega : ts.length < LEN)]
          exact ih nm' (ts ++ [packet]) cs hS (by simp; omega) (by omega)
        | Command =>
          dsimp only
          rw [if_pos (by omega : cs.length < LEN)]
          exact ih nm' ts (cs ++ [packet]) hS (by omega) (by simp; omega)
        | ACK =>
          dsimp only
          rw [if_pos hS, if_pos (by omega : ts.length < LEN)]
          exact ih nm' (ts ++ [_]) cs hS (by simp; omega) (by omega)
        | Bootup =>
          dsimp only
          rw [if_pos hS, if_pos (by omega : ts.length < LEN)]
          exact ih nm' (ts ++ [_]) cs hS (by simp; omega) (by omega)

/-- C8: a frame whose `receive_packet` fails is skipped — the fold continues
with the remaining frames unchanged — and `handle_packets` on any decoded
batch (at most `LEN` frames, nonzero payload capacity) returns `Ok`. -/
theorem handle_packets_skips_and_ok (SIZE LEN now : Nat) (nm : NetworkManager)
    (pkts : List MHPacket) (pkt : MHPacket) (e : NetworkManagerError)
    (hS : 1 ≤ SIZE) (hlen : pkts.length ≤ LEN)
    (herr : NetworkManager.receive_packet LEN now nm pkt = Except.error e) :
    (∀ to_send commands,
      NetworkManager.handle_packets_go SIZE LEN now nm (pkt :: pkts) to_send commands =
        NetworkManager.handle_packets_go SIZE LEN now nm pkts to_send commands) ∧
    ∃ r, NetworkManager.handle_packets SIZE LEN now nm pkts = Except.ok r := by
  constructor
  · intro ts cs
    simp only [NetworkManager.handle_packets_go, herr]
  · simpa only [NetworkManager.handle_packets] using
      handle_packets_go_ok SIZE LEN now pkts nm [] [] hS (by simpa using hlen)
        (by simpa using hlen)

/-- C8 witness: `pktGwb` makes `receive_packet` fail with `BufferFull` on the
saturated manager `nmC4`, yet prepending it to a batch only skips it, and
`handle_packets` on the empty batch returns `Ok`. -/
theorem handle_packets_skips_and_ok_witness :
    (∀ to_send commands,
      NetworkManager.handle_packets_go 40 1 0 nmC4 (pktGwb :: []) to_send commands =
        NetworkManager.handle_packets_go 40 1 0 nmC4 [] to_send commands) ∧
    ∃ r, NetworkManager.handle_packets 40 1 0 nmC4 [] = Except.ok r :=
  handle_packets_skips_and_ok 40 1 0 nmC4 [] pktGwb NetworkManagerError.BufferFull
    (by decide) (by decide) (by decide)

/-- Pushing a pair into the ring at an in-range cursor makes `contains` find
it. -/
theorem RecentSeen.contains_push_self (rs : RecentSeen) (pid : Nat × Nat)
    (h : rs.cursor < rs.buffer.length) : (rs.push pid).contains pid = true := by
  simp only [RecentSeen.push, RecentSeen.contains, decide_eq_true_eq]
  exact List.mem_set rs.buffer rs.cursor h (some pid)

/-- First-sight behaviour of `receive_packet` for a non-BootUp frame that
matches no pending entry, is not in `recent_seen` and is not forwarded: only
`recent_seen` changes, and the frame is delivered iff it is addressed to this
node. -/
theorem receive_first_sight (LEN now : Nat) (nm : NetworkManager) (pkt : MHPacket)
    (hty : ¬ pkt.packet_type = PacketType.BootUp)
    (hpend : nm.pending_acks.findIdx? (fun p => NetworkManager.pendingMatches p pkt) = none)
    (hseen : nm.recent_seen.contains (pkt.source_id, pkt.packet_id) = false)
    (hnofwd : pkt.destination_id = nm.source_id ∨
      NetworkManager.should_forward nm pkt = false) :
    NetworkManager.receive_packet LEN now nm pkt =
      Except.ok ({ nm with recent_seen := nm.recent_seen.push (pkt.source_id, pkt.packet_id) },
        if pkt.destination_id = nm.source_id then some (pkt, PayloadType.Command) else none) := by
  simp only [NetworkManager.receive_packet, hty, if_false, hpend, hseen, Bool.false_eq_true]
  by_cases hus : pkt.destination_id = nm.source_id
  · rw [if_pos hus, if_pos hus]
  · rcases hnofwd with h | h
    · exact absurd h hus
    · rw [if_neg hus, if_neg hus]
      simp only [h, Bool.false_eq_true, if_false]

/-- Duplicate-suppression behaviour of `receive_packet`: a non-BootUp,
non-Ack frame already recorded in `recent_seen` (and matching no pending
entry) is answered with the `ACK` disposition and the state is untouched. -/
theorem receive_duplicate (LEN now : Nat) (nm : NetworkManager) (pkt : MHPacket)
    (hty : ¬ pkt.packet_type = PacketType.BootUp)
    (hack : ¬ pkt.packet_type = PacketType.Ack)
    (hpend : nm.pending_acks.findIdx? (fun p => NetworkManager.pendingMatches p pkt) = none)
    (hseen : nm.recent_seen.contains (pkt.source_id, pkt.packet_id) = true) :
    NetworkManager.receive_packet LEN now nm pkt =
      Except.ok (nm, some (pkt, PayloadType.ACK)) := by
  simp only [NetworkManager.receive_packet, hty, if_false, hpend, hseen, if_true, hack]

/-- C7 amended: a Data frame `f` received twice by a NodePolicy node that
holds no matching pending entry, has not seen `f` before and does not
forward it (it is addressed to this node, or the node is outside the
forwarding path) yields exactly one synthesized Ack across the two calls —
none on first sight, one on the duplicate — with destination `f.source_id`,
source this node, type Ack, packet id `f.packet_id`, payload `[0]`,
hop_count 0 and hop_to_gw this node's `gw_hops`; `f` reaches the application
at most once (once when addressed to this node, never otherwise). -/
theorem duplicate_single_ack (SIZE LEN now now2 : Nat) (nm : NetworkManager) (f : MHPacket)
    (hty : f.packet_type = PacketType.Data)
    (hpend : nm.pending_acks.findIdx? (fun p => NetworkManager.pendingMatches p f) = none)
    (hseen : nm.recent_seen.contains (f.source_id, f.packet_id) = false)
    (hcur : nm.recent_seen.cursor < nm.recent_seen.buffer.length)
    (hnofwd : f.destination_id = nm.source_id ∨ NetworkManager.should_forward nm f = false)
    (hS : 1 ≤ SIZE) (hL : 1 ≤ LEN) :
    NodePolicy.process_packets SIZE LEN now nm [f] =
      Except.ok ({ nm with recent_seen := nm.recent_seen.push (f.source_id, f.packet_id) },
        [], if f.destination_id = nm.source_id then [f] else []) ∧
    NodePolicy.process_packets SIZE LEN now2
        { nm with recent_seen := nm.recent_seen.push (f.source_id, f.packet_id) } [f] =
      Except.ok ({ nm with recent_seen := nm.recent_seen.push (f.source_id, f.packet_id) },
        [{ destination_id := f.source_id, packet_type := PacketType.Ack,
           packet_id := f.packet_id, source_id := nm.source_id, payload := [0],
           hop_count := 0, hop_to_gw := nm.gw_hops }], []) ∧
    (if f.destination_id = nm.source_id then [f] else ([] : List MHPacket)).length ≤ 1 := by
  have htyB : ¬ f.packet_type = PacketType.BootUp := by simp [hty]
  have htyA : ¬ f.packet_type = PacketType.Ack := by simp [hty]
  have hL0 : ([] : List MHPacket).length < LEN := by simpa using hL
  refine ⟨?_, ?_, ?_⟩
  · have h1 := receive_first_sight LEN now nm f htyB hpend hseen hnofwd
    by_cases hus : f.destination_id = nm.source_id
    · rw [if_pos hus] at h1
      simp only [NodePolicy.process_packets, NetworkManager.handle_packets,
        NetworkManager.handle_packets_go, h1]
      rw [if_pos hL0]
      simp only [NetworkManager.handle_packets_go, List.nil_append, if_pos hus]
    · rw [if_neg hus] at h1
      simp only [NodePolicy.process_packets, NetworkManager.handle_packets,
        NetworkManager.handle_packets_go, h1]
      rw [if_neg hus]
  · have h2 := receive_duplicate LEN now2
      { nm with recent_seen := nm.recent_seen.push (f.source_id, f.packet_id) } f htyB htyA
      hpend (RecentSeen.contains_push_self nm.recent_seen (f.source_id, f.packet_id) hcur)
    simp only [NodePolicy.process_packets, NetworkManager.handle_packets,
      NetworkManager.handle_packets_go, h2]
    rw [if_pos hS, if_pos hL0]
    simp only [NetworkManager.handle_packets_go, List.nil_append]
  · by_cases hus : f.destination_id = nm.source_id
    · rw [if_pos hus]
      exact Nat.le_refl 1
    · rw [if_neg hus]
      exact Nat.zero_le 1

/-- C7 witness: node 3 receives `fToUs` (addressed to itself) twice; the
first call delivers it to the application, the second emits the single
synthesized Ack. -/
theorem duplicate_single_ack_witness :
    NodePolicy.process_packets 40 4 0 nmW [fToUs] =
      Except.ok ({ nmW with
                    recent_seen := nmW.recent_seen.push (fToUs.source_id, fToUs.packet_id) },
        [], if fToUs.destination_id = nmW.source_id then [fToUs] else []) ∧
    NodePolicy.process_packets 40 4 5
        { nmW with recent_seen := nmW.recent_seen.push (fToUs.source_id, fToUs.packet_id) }
        [fToUs] =
      Except.ok ({ nmW with
                    recent_seen := nmW.recent_seen.push (fToUs.source_id, fToUs.packet_id) },
        [{ destination_id := fToUs.source_id, packet_type := PacketType.Ack,
           packet_id := fToUs.packet_id, source_id := nmW.source_id, payload := [0],
           hop_count := 0, hop_to_gw := nmW.gw_hops }], []) ∧
    (if fToUs.destination_id = nmW.source_id then [fToUs] else ([] : List MHPacket)).length ≤ 1 :=
  duplicate_single_ack 40 4 0 5 nmW fToUs (by decide) (by decide) (by decide) (by decide)
    (Or.inl (by decide)) (by decide) (by decide)

/-- C10: GatewayPolicy neither reads nor mutates the NetworkManager (its
output is identical for any two manager states, and the manager is returned
untouched); every synthesized Ack answers a frame of the batch whose type is
not Ack and whose source is not 0, carrying destination = that frame's
source, source = that frame's destination (not the gateway identity), empty
payload, hop_count 0 and hop_to_gw 0; filtered frames produce no Ack (the
Ack count equals the count of non-Ack, non-source-0 frames). -/
theorem gateway_policy_ack_fields (nm nm2 : NetworkManager) (pkts : List MHPacket) :
    ∃ to_send, GatewayPolicy.process_packets nm pkts = Except.ok (nm, to_send, pkts) ∧
      GatewayPolicy.process_packets nm2 pkts = Except.ok (nm2, to_send, pkts) ∧
      (∀ a ∈ to_send, ∃ pkt ∈ pkts, ¬ pkt.packet_type = PacketType.Ack ∧ ¬ pkt.source_id = 0 ∧
        a.destination_id = pkt.source_id ∧ a.source_id = pkt.destination_id ∧
        a.packet_type = PacketType.Ack ∧ a.payload = [] ∧ a.hop_count = 0 ∧ a.hop_to_gw = 0) ∧
      to_send.length = (pkts.filter fun pkt =>
        !decide (pkt.packet_type = PacketType.Ack) && !decide (pkt.source_id = 0)).length := by
  refine ⟨_, rfl, rfl, ?_, by simp [GatewayPolicy.process_packets]⟩
  intro a ha
  simp only [GatewayPolicy.process_packets, List.mem_map, List.mem_filter,
    Bool.and_eq_true, Bool.not_eq_eq_eq_not, Bool.not_true, decide_eq_false_iff_not] at ha
  obtain ⟨pkt, ⟨hmem, hnack, hnsrc⟩, rfl⟩ := ha
  exact ⟨pkt, hmem, hnack, hnsrc, rfl, rfl, rfl, rfl, rfl, rfl⟩

/-- C10 witness: the field properties instantiated on the three-duplicate
batch and two unrelated manager states. -/
theorem gateway_policy_ack_fields_witness :
    ∃ to_send, GatewayPolicy.process_packets nmW batchDup = Except.ok (nmW, to_send, batchDup) ∧
      GatewayPolicy.process_packets nmPend batchDup = Except.ok (nmPend, to_send, batchDup) ∧
      (∀ a ∈ to_send, ∃ pkt ∈ batchDup,
        ¬ pkt.packet_type = PacketType.Ack ∧ ¬ pkt.source_id = 0 ∧
        a.destination_id = pkt.source_id ∧ a.source_id = pkt.destination_id ∧
        a.packet_type = PacketType.Ack ∧ a.payload = [] ∧ a.hop_count = 0 ∧ a.hop_to_gw = 0) ∧
      to_send.length = (batchDup.filter fun pkt =>
        !decide (pkt.packet_type = PacketType.Ack) && !decide (pkt.source_id = 0)).length :=
  gateway_policy_ack_fields nmW nmPend batchDup

end MustHop
